import Mathlib

/-!
# Verification of the jolt-go binding layer

Shallow embedding of the jolt-go repository (Go bindings plus a C wrapper over
the Jolt physics engine) and proofs about its behaviour.

Conventions used by the embedding:
* machine floats that only ever flow through the wrapper unchanged are modelled
  as exact rationals (`ℚ`); where the exact literal values of `float32` fields
  matter syntactically (the character-settings defaults) we use `Float` and
  keep every literal exactly as written in the Go source;
* opaque engine handles (`JoltShape`, `JoltBodyID`, ...) are modelled as `Nat`;
* calls into the wrapped Jolt engine (which is a binary dependency, not part of
  the repository sources) are modelled by explicit parameters carrying the
  engine's outcome, or by definitions marked `Modelled from the spec:`;
* C functions that can dereference a null pointer, and Go code that can panic,
  return `Except`.
-/

set_option autoImplicit false

namespace JoltGo

/-! ## Collision layers and the object-layer pair filter

From `src/wrapper/jolt_wrapper.cpp` (identical in `src/unnamed/part_013` and
`src/unnamed/part_005`): `Layers::NON_MOVING = 0`, `Layers::MOVING = 1`,
`Layers::NUM_LAYERS = 2`.
-/

def NON_MOVING : Nat := 0

def MOVING : Nat := 1

def NUM_LAYERS : Nat := 2

/-- `ObjectLayerPairFilterImpl::ShouldCollide` from `src/wrapper/jolt_wrapper.cpp`:
switch on the first object layer; `NON_MOVING` collides only with `MOVING`,
`MOVING` collides with everything, any other layer asserts and returns false. -/
def ObjectLayerPairFilterImpl.ShouldCollide (inObject1 inObject2 : Nat) : Bool :=
  if inObject1 = NON_MOVING then inObject2 == MOVING
  else if inObject1 = MOVING then true
  else false

/-! ## World creation

`JoltCreatePhysicsSystem` from `src/wrapper/jolt_wrapper.cpp` lines 216-240
(same constants in `src/unnamed/part_013`): the function takes no parameters
and passes the local constants `cMaxBodies = 1024`, `cNumBodyMutexes = 0`,
`cMaxBodyPairs = 1024`, `cMaxContactConstraints = 1024` to
`PhysicsSystem::Init`.
-/

structure PhysicsSystemConfig where
  maxBodies : Nat
  numBodyMutexes : Nat
  maxBodyPairs : Nat
  maxContactConstraints : Nat
deriving DecidableEq, Repr

/-- The capacities `JoltCreatePhysicsSystem` hands to `PhysicsSystem::Init`.
The C function takes no arguments, so this is a constant. -/
def JoltCreatePhysicsSystem : PhysicsSystemConfig :=
  { maxBodies := 1024
    numBodyMutexes := 0
    maxBodyPairs := 1024
    maxContactConstraints := 1024 }

/-- Modelled from the spec: the create-world row of the interface table,
"create world | max bodies, max body-pairs, max contact constraints | world
handle | capacities fixed at creation".  Used only to compare the source
operation against the spec's caller-supplied-capacities signature. -/
def createWorldSpec (maxBodies maxBodyPairs maxContactConstraints : Nat) :
    PhysicsSystemConfig :=
  { maxBodies := maxBodies
    numBodyMutexes := 0
    maxBodyPairs := maxBodyPairs
    maxContactConstraints := maxContactConstraints }

/-! ## Casting a ray against a standalone shape

Go side: `Shape.CastRay` in `src/jolt/shape.go` lines 139-160, with
`RayCastSettings` (a `BackfaceMode` and a `TreatConvexAsSolid` flag) marshalled
to ints.  C side: `JoltShapeCastRay` in `src/unnamed/part_007` lines 107-131,
which builds the ray and then calls the *settings-less* engine overload
`Shape::CastRay(ray, sub_shape_creator, result)`; the `backfaceMode` and
`treatConvexAsSolid` parameters it received are never read.

The engine call is modelled by the parameter `engineCastRay : Option ℚ`, the
outcome of the settings-less overload for the given shape and ray (`some f`
when that overload reports a hit at fraction `f`, `none` on a miss).  Modelled
from the spec: for a ray starting inside a solid convex shape this overload
reports a hit at fraction 0 ("inside-start solid convention", the repository's
own test `src/jolt/shape_test.go` "Ray starts inside sphere" checks exactly
this outcome through `JoltShapeCastRay`).
-/

/-- `BackfaceMode` constants from `src/jolt/shape.go`. -/
def BackfaceModeIgnore : Int := 0

def BackfaceModeCollideWithAll : Int := 1

/-- `RayCastSettings` from `src/jolt/shape.go`. -/
structure RayCastSettings where
  backfaceMode : Int
  treatConvexAsSolid : Bool
deriving DecidableEq, Repr

/-- `DefaultRayCastSettings` from `src/jolt/shape.go`. -/
def DefaultRayCastSettings : RayCastSettings :=
  { backfaceMode := BackfaceModeIgnore, treatConvexAsSolid := true }

/-- `boolToInt` from `src/jolt/shape.go`. -/
def boolToInt (b : Bool) : Int := if b then 1 else 0

/-- `JoltShapeCastRay` from `src/unnamed/part_007`: the `backfaceMode` and
`treatConvexAsSolid` arguments are received but never used; the function
forwards the ray to the settings-less engine overload and returns its result
(`*outFraction` is written only on a hit). -/
def JoltShapeCastRay (engineCastRay : Option ℚ)
    (backfaceMode treatConvexAsSolid : Int) : Option ℚ :=
  engineCastRay

/-- `Shape.CastRay` from `src/jolt/shape.go`: marshals its `RayCastSettings`
into the two ints of `JoltShapeCastRay`; on a hit it stores the fraction in
`result` and returns true, otherwise it leaves `result` at its previous value
and returns false.  The returned pair is (hit flag, `result.Fraction` after
the call). -/
def Shape.CastRay (engineCastRay : Option ℚ) (settings : RayCastSettings)
    (resultPrev : ℚ) : Bool × ℚ :=
  match JoltShapeCastRay engineCastRay settings.backfaceMode
      (boolToInt settings.treatConvexAsSolid) with
  | some f => (true, f)
  | none => (false, resultPrev)

/-! ## Character settings defaults

`NewCharacterVirtualSettings` from `src/jolt/character.go` lines 102-123 and
`DegreesToRadians` from `src/jolt/core.go`.  The `float32` fields are modelled
as `Float` with the literals exactly as written in the Go source; `mathPi` is
the Go constant `math.Pi` as it rounds to double precision.
-/

def mathPi : Float := 3.141592653589793

/-- `DegreesToRadians` from `src/jolt/core.go`: `degrees * math.Pi / 180.0`. -/
def DegreesToRadians (degrees : Float) : Float := degrees * mathPi / 180.0

/-- Float-valued 3D vector (`Vec3` of `src/jolt/vec.go`). -/
structure Vec3 where
  x : Float
  y : Float
  z : Float

/-- `BackFaceMode` constants from `src/jolt/character.go` (distinct from the
shape-query `BackfaceMode` of `src/jolt/shape.go`). -/
def BackFaceModeIgnore : Int := 0

def BackFaceModeCollide : Int := 1

/-- `CharacterVirtualSettings` from `src/jolt/character.go`. -/
structure CharacterVirtualSettings where
  shape : Nat
  up : Vec3
  maxSlopeAngle : Float
  mass : Float
  maxStrength : Float
  shapeOffset : Vec3
  backFaceMode : Int
  predictiveContactDistance : Float
  maxCollisionIterations : Nat
  maxConstraintIterations : Nat
  minTimeRemaining : Float
  collisionTolerance : Float
  characterPadding : Float
  maxNumHits : Nat
  hitReductionCosMaxAngle : Float
  penetrationRecoverySpeed : Float
  enhancedInternalEdgeRemoval : Bool

/-- `NewCharacterVirtualSettings` from `src/jolt/character.go`. -/
def NewCharacterVirtualSettings (shape : Nat) : CharacterVirtualSettings :=
  { shape := shape
    up := ⟨0, 1, 0⟩
    maxSlopeAngle := DegreesToRadians 50.0
    mass := 70.0
    maxStrength := 100.0
    shapeOffset := ⟨0, 0, 0⟩
    backFaceMode := BackFaceModeCollide
    predictiveContactDistance := 0.1
    maxCollisionIterations := 5
    maxConstraintIterations := 15
    minTimeRemaining := 1.0e-4
    collisionTolerance := 1.0e-3
    characterPadding := 0.02
    maxNumHits := 256
    hitReductionCosMaxAngle := 0.999
    penetrationRecoverySpeed := 1.0
    enhancedInternalEdgeRemoval := false }

/-- The defaults enumerated in the spec's interface section (§6): up-vector +Y,
max walkable slope 50° in radians, mass 70, max push strength 100, zero shape
offset, back-face mode collide, predictive contact distance 0.1, 5 collision
iterations, 15 constraint iterations, min time remaining 1e-4, collision
tolerance 1e-3, character padding 0.02, max contact hits 256, hit-merge cosine
threshold 0.999, penetration recovery speed 1.0, enhanced internal-edge
removal off.  Written from the spec's words, for comparison with the source's
`NewCharacterVirtualSettings`. -/
def characterDefaultsSpec (shape : Nat) : CharacterVirtualSettings :=
  { shape := shape
    up := ⟨0, 1, 0⟩
    maxSlopeAngle := DegreesToRadians 50.0
    mass := 70.0
    maxStrength := 100.0
    shapeOffset := ⟨0, 0, 0⟩
    backFaceMode := BackFaceModeCollide
    predictiveContactDistance := 0.1
    maxCollisionIterations := 5
    maxConstraintIterations := 15
    minTimeRemaining := 1.0e-4
    collisionTolerance := 1.0e-3
    characterPadding := 0.02
    maxNumHits := 256
    hitReductionCosMaxAngle := 0.999
    penetrationRecoverySpeed := 1.0
    enhancedInternalEdgeRemoval := false }

/-! ## Body creation

C side: `JoltCreateBody` in `src/jolt/wrapper/body.cpp` lines 55-109, and the
legacy creators `JoltCreateSphere` / `JoltCreateBox` in
`src/wrapper/jolt_wrapper.cpp` lines 273-322 (same code in
`src/unnamed/part_013`).

The engine call `BodyInterface::CreateBody` lives in the wrapped engine, not
under `src/`.  Modelled from the spec: on resource exhaustion ("body/pair/
constraint capacity exceeded") the engine creation "must be surfaced, not
silently dropped"; the engine signals it by returning a null body.  The
parameter `engineBody : Option Nat` carries that outcome (`none` = capacity
exceeded, `some id` = the created body's id).
-/

/-- Rational-valued 3D vector, for positions flowing through the wrapper. -/
structure Vec3Q where
  x : ℚ
  y : ℚ
  z : ℚ
deriving DecidableEq, Repr

/-- `EMotionType` of the engine, as selected by the wrapper. -/
inductive EMotionType where
  | static
  | kinematic
  | dynamic
deriving DecidableEq, Repr

/-- `EActivation` of the engine, as passed to `BodyInterface::AddBody`. -/
inductive EActivation where
  | activate
  | dontActivate
deriving DecidableEq, Repr

/-- The `BodyCreationSettings` the wrapper builds. -/
structure BodyCreationSettings where
  shape : Nat
  position : Vec3Q
  motionType : EMotionType
  layer : Nat
  isSensor : Bool
deriving DecidableEq, Repr

/-- Outcome of a body-creation call: the settings used, the handle returned to
the caller (`none` models a returned null pointer), and the activation mode
passed to `AddBody` (`none` when `AddBody` was never reached). -/
structure CreateBodyResult where
  settings : BodyCreationSettings
  returnedHandle : Option Nat
  addedActivation : Option EActivation
deriving DecidableEq, Repr

/-- The `switch (motionType)` of `JoltCreateBody` in
`src/jolt/wrapper/body.cpp`: motion type and object layer selected from the
`JoltMotionType` int (0 static, 1 kinematic, 2 dynamic, default static). -/
def motionTypeLayer (motionType : Int) : EMotionType × Nat :=
  if motionType = 0 then (.static, NON_MOVING)
  else if motionType = 1 then (.kinematic, MOVING)
  else if motionType = 2 then (.dynamic, MOVING)
  else (.static, NON_MOVING)

/-- `JoltCreateBody` from `src/jolt/wrapper/body.cpp`: builds the creation
settings, calls the engine's `CreateBody`; `if (!body) return nullptr;`
otherwise `AddBody(body->GetID(), EActivation::DontActivate)` and return a
fresh handle to the body id. -/
def JoltCreateBody (engineBody : Option Nat) (shape : Nat) (pos : Vec3Q)
    (motionType : Int) (isSensor : Bool) : CreateBodyResult :=
  let mtl := motionTypeLayer motionType
  let settings : BodyCreationSettings :=
    { shape := shape, position := pos, motionType := mtl.1, layer := mtl.2
      isSensor := isSensor }
  match engineBody with
  | none => { settings := settings, returnedHandle := none, addedActivation := none }
  | some id =>
      { settings := settings, returnedHandle := some id
        addedActivation := some .dontActivate }

/-- A crash of the C wrapper (undefined behaviour reached). -/
inductive JoltCrash where
  | nullBodyDereference
deriving DecidableEq, Repr

namespace Wrapper

/-- `JoltCreateSphere` from `src/wrapper/jolt_wrapper.cpp` lines 273-296: makes
a fresh sphere shape (handle abstracted as 0), builds the creation settings
(dynamic bodies on `MOVING`, static on `NON_MOVING`), calls the engine's
`CreateBody`, and — without any null check — dereferences the result in
`body->GetID()` and adds it with `EActivation::Activate`. -/
def JoltCreateSphere (engineBody : Option Nat) (radius : ℚ) (pos : Vec3Q)
    (isDynamic : Bool) : Except JoltCrash CreateBodyResult :=
  let settings : BodyCreationSettings :=
    { shape := 0, position := pos
      motionType := if isDynamic then .dynamic else .static
      layer := if isDynamic then MOVING else NON_MOVING
      isSensor := false }
  match engineBody with
  | none => .error .nullBodyDereference
  | some id =>
      .ok { settings := settings, returnedHandle := some id
            addedActivation := some .activate }

end Wrapper

/-! ## Character shape change

Go side: `CharacterVirtual.SetShape` in `src/jolt/character.go` lines 304-311,
a method with **no return value**.  C side: `JoltCharacterVirtualSetShape` in
`src/unnamed/part_008` lines 202-225, returning `void` and discarding the
`bool` produced by the engine's `CharacterVirtual::SetShape`.

Modelled from the spec: the engine's `CharacterVirtual::SetShape` (not under
`src/`) — "if the new shape would penetrate geometry beyond that threshold,
the change fails and the controller retains its previous shape", signalling
the outcome as a boolean.  `newShapePenetration` abstracts the penetration
depth the engine measures for the new shape against the world geometry.
-/

/-- The character state the shape change touches. -/
structure CharacterState where
  shape : Nat
deriving DecidableEq, Repr

/-- Modelled from the spec: the wrapped engine's `CharacterVirtual::SetShape`
— swap the shape and return true when the measured penetration stays within
`maxPenetrationDepth`, otherwise keep the previous shape and return false. -/
def engineSetShape (c : CharacterState) (newShape : Nat)
    (maxPenetrationDepth newShapePenetration : ℚ) : CharacterState × Bool :=
  if newShapePenetration ≤ maxPenetrationDepth then ({ shape := newShape }, true)
  else (c, false)

/-- `JoltCharacterVirtualSetShape` from `src/unnamed/part_008`: builds the
layer filters and calls the engine's `SetShape`; the function returns `void`,
so only the mutated character survives the call and the engine's boolean is
discarded. -/
def JoltCharacterVirtualSetShape (c : CharacterState) (newShape : Nat)
    (maxPenetrationDepth newShapePenetration : ℚ) : CharacterState :=
  (engineSetShape c newShape maxPenetrationDepth newShapePenetration).1

/-- What a call to the Go method `CharacterVirtual.SetShape` leaves behind:
the mutated character and the method's return value — which is `Unit`,
because the Go method returns nothing. -/
structure SetShapeCall where
  character : CharacterState
  returned : Unit
deriving DecidableEq, Repr

/-- `CharacterVirtual.SetShape` from `src/jolt/character.go`: forwards to
`JoltCharacterVirtualSetShape` and returns nothing. -/
def CharacterVirtual.SetShape (c : CharacterState) (newShape : Nat)
    (maxPenetrationDepth newShapePenetration : ℚ) : SetShapeCall :=
  { character := JoltCharacterVirtualSetShape c newShape maxPenetrationDepth
      newShapePenetration
    returned := () }

/-! ## Query façade: all-hits ray casts and collide-shape queries

Go side: `PhysicsSystem.CastRayGetHits` and `PhysicsSystem.CollideShapeGetHits`
in `src/jolt/query.go`.  C side: `JoltCastRayGetHits` with `AllRayHitsCollector`
and `JoltCollideShapeGetHits` with `AllHitsCollector` in
`src/jolt/wrapper/shape.h`.

The engine's `NarrowPhaseQuery::CastRay` / `CollideShape` (not under `src/`)
deliver a stream of hits to the collector's `AddHit`; that stream is modelled
by the parameter `engineHits`, the hits in callback order.
-/

/-- `JPH::RayCastResult` as the collector sees it: the hit body and the
fraction along the ray. -/
structure RayCastResultRec where
  bodyID : Nat
  fraction : ℚ
deriving DecidableEq, Repr

/-- Comparison used by `AllRayHitsCollector::Finalize`'s `std::sort`:
`a.mFraction < b.mFraction` as a strict-weak order, modelled by its reflexive
closure for the stable `mergeSort`. -/
def fractionLe (a b : RayCastResultRec) : Bool :=
  a.fraction ≤ b.fraction

/-- `AllRayHitsCollector::AddHit` over the callback stream: each hit is kept
when `m_numHits < m_maxHits`; since `m_numHits` stays 0 until `Finalize`, the
guard is `0 < maxHits` for every hit. -/
def AllRayHitsCollector.collect (maxHits : Int)
    (engineHits : List RayCastResultRec) : List RayCastResultRec :=
  engineHits.foldl (fun acc h => if 0 < maxHits then acc ++ [h] else acc) []

/-- `AllRayHitsCollector::Finalize`: sort the collected hits ascending by
fraction, then copy out `numToReturn = min((int)size, maxHits)` of them. -/
def AllRayHitsCollector.finalize (maxHits : Int)
    (collected : List RayCastResultRec) : List RayCastResultRec :=
  let sorted := collected.mergeSort fractionLe
  let numToReturn := min (sorted.length : Int) maxHits
  sorted.take numToReturn.toNat

/-- `JoltCastRayGetHits` from `src/jolt/wrapper/shape.h`: run the engine cast
through an `AllRayHitsCollector`, finalize, and return `GetNumHits()` hits. -/
def JoltCastRayGetHits (engineHits : List RayCastResultRec) (maxHits : Int) :
    List RayCastResultRec :=
  AllRayHitsCollector.finalize maxHits (AllRayHitsCollector.collect maxHits engineHits)

/-- `PhysicsSystem.CastRayGetHits` from `src/jolt/query.go`: `maxHits <= 0`
returns an empty slice without calling into C; otherwise the C call's
`numHits` results are converted 1:1. -/
def PhysicsSystem.CastRayGetHits (engineHits : List RayCastResultRec)
    (maxHits : Int) : List RayCastResultRec :=
  if maxHits ≤ 0 then []
  else JoltCastRayGetHits engineHits maxHits

/-- `JoltCollisionHit` content as collected for a collide-shape query. -/
structure CollisionHit where
  bodyID : Nat
  contactPoint : Vec3Q
  penetrationDepth : ℚ
deriving DecidableEq, Repr

/-- `JoltCollideShapeGetHits` from `src/jolt/wrapper/shape.h`: its
`AllHitsCollector::AddHit` increments `m_numHits` while copying, so it keeps
the first `maxHits` hits of the callback stream. -/
def JoltCollideShapeGetHits (engineHits : List CollisionHit) (maxHits : Int) :
    List CollisionHit :=
  engineHits.take maxHits.toNat

/-- `PhysicsSystem.CollideShapeGetHits` from `src/jolt/query.go`:
`maxHits <= 0` returns an empty slice without calling into C; otherwise the C
call's `numHits` results are converted 1:1. -/
def PhysicsSystem.CollideShapeGetHits (engineHits : List CollisionHit)
    (maxHits : Int) : List CollisionHit :=
  if maxHits ≤ 0 then []
  else JoltCollideShapeGetHits engineHits maxHits

/-! ## Character active contacts

C side: `JoltCharacterVirtualGetActiveContacts` in `src/unnamed/part_008`
lines 257-315, copying `numToReturn = min(numContacts, maxContacts)` contact
records.  Go side: `CharacterVirtual.GetActiveContacts` in
`src/jolt/character.go` lines 348-402, which allocates
`make([]C.JoltCharacterContact, maxContacts)` and passes `&cContacts[0]` —
for `maxContacts = 0` the index expression panics on the empty slice, and for
negative `maxContacts` the `make` itself panics.
-/

/-- One record of `CharacterVirtual::GetActiveContacts` as copied out by the
wrapper and converted by the Go layer. -/
structure CharacterContact where
  position : Vec3Q
  linearVelocity : Vec3Q
  contactNormal : Vec3Q
  surfaceNormal : Vec3Q
  distance : ℚ
  fraction : ℚ
  bodyB : Option Nat
  userData : Nat
  isSensorB : Bool
  hadCollision : Bool
  wasDiscarded : Bool
  canPushCharacter : Bool
deriving DecidableEq, Repr

/-- `JoltCharacterVirtualGetActiveContacts` from `src/unnamed/part_008`: copy
out `numToReturn = numContacts < maxContacts ? numContacts : maxContacts`
records of the character's active-contact list, in order. -/
def JoltCharacterVirtualGetActiveContacts (activeContacts : List CharacterContact)
    (maxContacts : Int) : List CharacterContact :=
  let numContacts : Int := activeContacts.length
  let numToReturn := if numContacts < maxContacts then numContacts else maxContacts
  activeContacts.take numToReturn.toNat

/-- A Go runtime panic. -/
inductive GoPanic where
  | makeslice
  | indexOutOfRange
deriving DecidableEq, Repr

/-- `CharacterVirtual.GetActiveContacts` from `src/jolt/character.go`:
`make([]C.JoltCharacterContact, maxContacts)` panics for a negative length;
for `maxContacts = 0` the argument `&cContacts[0]` indexes the empty slice
and panics; otherwise the C call's `numContacts` results are converted 1:1. -/
def CharacterVirtual.GetActiveContacts (activeContacts : List CharacterContact)
    (maxContacts : Int) : Except GoPanic (List CharacterContact) :=
  if maxContacts < 0 then .error .makeslice
  else if maxContacts = 0 then .error .indexOutOfRange
  else .ok (JoltCharacterVirtualGetActiveContacts activeContacts maxContacts)

end JoltGo

/-! ## Theorems -/

/-- C1: a `NON_MOVING`/`NON_MOVING` pair is rejected by the object-layer pair
filter (so the collision pipeline never runs an exact test, hence never
generates a contact, for two static-layer bodies), while a `MOVING` body is
accepted by the filter against every layer, on either side of the pair. -/
theorem c1_layer_pair_filter (l : Nat) (hl : l < JoltGo.NUM_LAYERS) :
    JoltGo.ObjectLayerPairFilterImpl.ShouldCollide JoltGo.NON_MOVING JoltGo.NON_MOVING = false
    ∧ JoltGo.ObjectLayerPairFilterImpl.ShouldCollide JoltGo.MOVING l = true
    ∧ JoltGo.ObjectLayerPairFilterImpl.ShouldCollide l JoltGo.MOVING = true := by
  refine ⟨rfl, rfl, ?_⟩
  have h2 : l < 2 := hl
  interval_cases l <;> rfl

/-- Witness for C1 at the concrete layer `NON_MOVING = 0`. -/
theorem c1_layer_pair_filter_witness :
    JoltGo.ObjectLayerPairFilterImpl.ShouldCollide JoltGo.NON_MOVING JoltGo.NON_MOVING = false
    ∧ JoltGo.ObjectLayerPairFilterImpl.ShouldCollide JoltGo.MOVING 0 = true
    ∧ JoltGo.ObjectLayerPairFilterImpl.ShouldCollide 0 JoltGo.MOVING = true :=
  c1_layer_pair_filter 0 (by decide)

/-- C3 counterexample: the create-world operation of the source takes no
caller-supplied capacities; a caller asking (per the spec's interface row) for
a world with capacities (7, 7, 7) cannot get one — the operation always
produces the hardcoded 1024/1024/1024 configuration. -/
theorem c3_counterexample :
    JoltGo.JoltCreatePhysicsSystem ≠ JoltGo.createWorldSpec 7 7 7 := by
  decide

/-- C3 (amended): `JoltCreatePhysicsSystem` takes no capacity inputs; the
world's maximum number of bodies, body pairs and contact constraints are fixed
at creation time to the internal constants 1024, 1024 and 1024. -/
theorem c3_world_capacities_fixed :
    JoltGo.JoltCreatePhysicsSystem = JoltGo.createWorldSpec 1024 1024 1024
    ∧ JoltGo.JoltCreatePhysicsSystem.maxBodies = 1024
    ∧ JoltGo.JoltCreatePhysicsSystem.maxBodyPairs = 1024
    ∧ JoltGo.JoltCreatePhysicsSystem.maxContactConstraints = 1024 :=
  ⟨rfl, rfl, rfl, rfl⟩

/-- C2: the claim says the caller-supplied `RayCastSettings` select the
ray-cast behaviour (solid vs. hollow inside-start handling, back-face mode).
In the code they do not: `JoltShapeCastRay` drops both settings on the floor
and always calls the settings-less engine overload, so `Shape.CastRay`'s
result is independent of the settings; in particular a ray starting inside a
solid shape still reports a hit at fraction 0 even with `TreatConvexAsSolid`
disabled (second conjunct, the failing input evaluated). -/
theorem c2_settings_ignored :
    (∀ (engineCastRay : Option ℚ) (s₁ s₂ : JoltGo.RayCastSettings) (prev : ℚ),
      JoltGo.Shape.CastRay engineCastRay s₁ prev
        = JoltGo.Shape.CastRay engineCastRay s₂ prev)
    ∧ JoltGo.Shape.CastRay (some 0)
        { backfaceMode := JoltGo.BackfaceModeIgnore, treatConvexAsSolid := false } 0
        = (true, 0) := by
  constructor
  · intro engineCastRay s₁ s₂ prev
    cases engineCastRay <;> rfl
  · rfl

/-- C8: `NewCharacterVirtualSettings` returns exactly the defaults the spec's
interface section enumerates. -/
theorem c8_character_defaults (shape : Nat) :
    JoltGo.NewCharacterVirtualSettings shape = JoltGo.characterDefaultsSpec shape :=
  rfl

/-- C5 counterexample: at the concrete exhausted-capacity input (engine returns
a null body; sphere of radius 1 at (0, 20, 0), dynamic), the legacy creation
operation `JoltCreateSphere` of `src/wrapper/jolt_wrapper.cpp` — one of the
body-creation operations the claim covers — does not surface a checkable
null/invalid handle: it dereferences the null body (`body->GetID()`), a crash. -/
theorem c5_counterexample :
    JoltGo.Wrapper.JoltCreateSphere none 1 ⟨0, 20, 0⟩ true
      = Except.error JoltGo.JoltCrash.nullBodyDereference := rfl

/-- C5 (amended): `JoltCreateBody` (the shape + motion-type + sensor creation
operation of `src/jolt/wrapper/body.cpp`) surfaces capacity exhaustion as a
null handle distinct from every successful handle, and skips `AddBody`, so
nothing is silently dropped into the world; the legacy `JoltCreateSphere`
performs no such check and crashes on the null body instead. -/
theorem c5_exhaustion_surfaced (shape : Nat) (pos : JoltGo.Vec3Q)
    (motionType : Int) (isSensor : Bool) (id : Nat) :
    (JoltGo.JoltCreateBody none shape pos motionType isSensor).returnedHandle = none
    ∧ (JoltGo.JoltCreateBody none shape pos motionType isSensor).addedActivation = none
    ∧ (JoltGo.JoltCreateBody (some id) shape pos motionType isSensor).returnedHandle
        = some id := ⟨rfl, rfl, rfl⟩

/-- C6 counterexample: at the concrete input (engine creates body 5; sphere of
radius 1 at (0, 20, 0), dynamic), the body-creation operation
`JoltCreateSphere` of `src/wrapper/jolt_wrapper.cpp` adds the body with
`EActivation::Activate` — not in the inactive state the claim asserts for
every body-creation operation. -/
theorem c6_counterexample :
    (JoltGo.Wrapper.JoltCreateSphere (some 5) 1 ⟨0, 20, 0⟩ true).map
        JoltGo.CreateBodyResult.addedActivation
      = Except.ok (some JoltGo.EActivation.activate)
    ∧ JoltGo.EActivation.activate ≠ JoltGo.EActivation.dontActivate := by
  exact ⟨rfl, by decide⟩

/-- C6 (amended): bodies created through `JoltCreateBody` (the shape +
motion-type + sensor creation operation) are added to the world with
`EActivation::DontActivate`, so they do not participate in the simulation
until the caller explicitly activates them; the legacy creators
`JoltCreateSphere`/`JoltCreateBox` instead add the body already activated. -/
theorem c6_created_inactive (shape : Nat) (pos : JoltGo.Vec3Q)
    (motionType : Int) (isSensor : Bool) (id : Nat) (radius : ℚ)
    (isDynamic : Bool) :
    (JoltGo.JoltCreateBody (some id) shape pos motionType isSensor).addedActivation
      = some JoltGo.EActivation.dontActivate
    ∧ (JoltGo.Wrapper.JoltCreateSphere (some id) radius pos isDynamic).map
        JoltGo.CreateBodyResult.addedActivation
      = Except.ok (some JoltGo.EActivation.activate) := ⟨rfl, rfl⟩

/-- C7 counterexample: at the concrete input (character with shape 1, new
shape 2, max penetration 1/10), the engine outcome differs between a rejected
change (penetration 1/2) and an accepted one (penetration 0), yet the value
the Go method `CharacterVirtual.SetShape` returns to its caller is identical
in both cases — the method returns nothing, so the rejection is not signalled
as a boolean/flag return value. -/
theorem c7_counterexample :
    (JoltGo.engineSetShape ⟨1⟩ 2 (1/10) (1/2)).2
        ≠ (JoltGo.engineSetShape ⟨1⟩ 2 (1/10) 0).2
    ∧ (JoltGo.CharacterVirtual.SetShape ⟨1⟩ 2 (1/10) (1/2)).returned
        = (JoltGo.CharacterVirtual.SetShape ⟨1⟩ 2 (1/10) 0).returned := by
  refine ⟨?_, rfl⟩
  simp only [JoltGo.engineSetShape]
  norm_num

/-- C7 (amended): when the new shape would penetrate geometry beyond the
caller-supplied maximum penetration depth, the change fails and the character
retains its previous shape, without a crash; but the binding discards the
engine's boolean — `JoltCharacterVirtualSetShape` returns `void` and the Go
`CharacterVirtual.SetShape` returns nothing, so the caller receives no
rejection flag and can detect the failure only by re-querying the shape. -/
theorem c7_shape_change_rejected (c : JoltGo.CharacterState) (newShape : Nat)
    (maxPen pen : ℚ) (h : maxPen < pen) :
    (JoltGo.CharacterVirtual.SetShape c newShape maxPen pen).character = c
    ∧ (JoltGo.CharacterVirtual.SetShape c newShape maxPen pen).returned = () := by
  refine ⟨?_, rfl⟩
  simp [JoltGo.CharacterVirtual.SetShape, JoltGo.JoltCharacterVirtualSetShape,
    JoltGo.engineSetShape, not_le.mpr h]

/-- Witness for C7 at the concrete rejected change: character with shape 1,
new shape 2, max penetration 1/10, measured penetration 1/2. -/
theorem c7_shape_change_rejected_witness :
    (JoltGo.CharacterVirtual.SetShape ⟨1⟩ 2 (1/10) (1/2)).character = ⟨1⟩
    ∧ (JoltGo.CharacterVirtual.SetShape ⟨1⟩ 2 (1/10) (1/2)).returned = () :=
  c7_shape_change_rejected ⟨1⟩ 2 (1/10) (1/2) (by norm_num)

/-- Folding append-singleton over a list appends the list. -/
theorem foldl_append_singleton {α : Type} (l acc : List α) :
    l.foldl (fun r x => r ++ [x]) acc = acc ++ l := by
  induction l generalizing acc with
  | nil => simp
  | cons x xs ih => simp [List.foldl_cons, ih]

/-- With a positive cap, `AllRayHitsCollector::AddHit` keeps every hit of the
callback stream. -/
theorem collect_of_pos {maxHits : Int} (h : 0 < maxHits)
    (l : List JoltGo.RayCastResultRec) :
    JoltGo.AllRayHitsCollector.collect maxHits l = l := by
  unfold JoltGo.AllRayHitsCollector.collect
  simp only [if_pos h]
  simpa using foldl_append_singleton l []

/-- `fractionLe` is transitive. -/
theorem fractionLe_trans (a b c : JoltGo.RayCastResultRec)
    (hab : JoltGo.fractionLe a b = true) (hbc : JoltGo.fractionLe b c = true) :
    JoltGo.fractionLe a c = true := by
  simp only [JoltGo.fractionLe, decide_eq_true_eq] at *
  exact le_trans hab hbc

/-- `fractionLe` is total. -/
theorem fractionLe_total (a b : JoltGo.RayCastResultRec) :
    (JoltGo.fractionLe a b || JoltGo.fractionLe b a) = true := by
  simp only [JoltGo.fractionLe, Bool.or_eq_true, decide_eq_true_eq]
  exact le_total _ _

/-- C4: for `maxHits ≥ 1`, `CastRayGetHits` returns the hits sorted ascending
by fraction; its length is `min(#hits, maxHits)`, so when more than `maxHits`
bodies are hit it returns exactly `maxHits` results (no error value exists in
the signature) and the count equalling the cap is the only trace of
truncation. -/
theorem c4_castray_sorted_capped (engineHits : List JoltGo.RayCastResultRec)
    (maxHits : Int) (h : 1 ≤ maxHits) :
    List.Sorted (fun a b => a.fraction ≤ b.fraction)
      (JoltGo.PhysicsSystem.CastRayGetHits engineHits maxHits)
    ∧ (JoltGo.PhysicsSystem.CastRayGetHits engineHits maxHits).length
      = min engineHits.length maxHits.toNat
    ∧ (maxHits.toNat < engineHits.length →
        (JoltGo.PhysicsSystem.CastRayGetHits engineHits maxHits).length
          = maxHits.toNat) := by
  have hpos : (0 : Int) < maxHits := by omega
  have key : JoltGo.PhysicsSystem.CastRayGetHits engineHits maxHits
      = (engineHits.mergeSort JoltGo.fractionLe).take
          ((min ((engineHits.mergeSort JoltGo.fractionLe).length : Int) maxHits).toNat) := by
    unfold JoltGo.PhysicsSystem.CastRayGetHits JoltGo.JoltCastRayGetHits
      JoltGo.AllRayHitsCollector.finalize
    rw [if_neg (by omega), collect_of_pos hpos]
  have hsortlen : (engineHits.mergeSort JoltGo.fractionLe).length = engineHits.length :=
    List.length_mergeSort engineHits
  have hlen : (JoltGo.PhysicsSystem.CastRayGetHits engineHits maxHits).length
      = min engineHits.length maxHits.toNat := by
    rw [key, List.length_take, hsortlen]
    omega
  refine ⟨?_, hlen, fun htrunc => by omega⟩
  rw [key]
  have hsorted := List.sorted_mergeSort fractionLe_trans fractionLe_total engineHits
  have hsorted' : List.Sorted (fun a b : JoltGo.RayCastResultRec => a.fraction ≤ b.fraction)
      (engineHits.mergeSort JoltGo.fractionLe) := by
    refine hsorted.imp ?_
    intro a b hab
    simpa [JoltGo.fractionLe, decide_eq_true_eq] using hab
  exact hsorted'.sublist (List.take_sublist _ _)

/-- Witness for C4: three hits with fractions 1/2, 1/4, 3/4 and cap 2. -/
theorem c4_castray_sorted_capped_witness :
    List.Sorted (fun a b => a.fraction ≤ b.fraction)
      (JoltGo.PhysicsSystem.CastRayGetHits
        [⟨1, 1/2⟩, ⟨2, 1/4⟩, ⟨3, 3/4⟩] 2)
    ∧ (JoltGo.PhysicsSystem.CastRayGetHits
        [⟨1, 1/2⟩, ⟨2, 1/4⟩, ⟨3, 3/4⟩] 2).length
      = min ([⟨1, 1/2⟩, ⟨2, 1/4⟩, (⟨3, 3/4⟩ : JoltGo.RayCastResultRec)] : List _).length
          (Int.toNat 2)
    ∧ ((Int.toNat 2) < ([⟨1, 1/2⟩, ⟨2, 1/4⟩, (⟨3, 3/4⟩ : JoltGo.RayCastResultRec)] : List _).length →
        (JoltGo.PhysicsSystem.CastRayGetHits
          [⟨1, 1/2⟩, ⟨2, 1/4⟩, ⟨3, 3/4⟩] 2).length = Int.toNat 2) :=
  c4_castray_sorted_capped [⟨1, 1/2⟩, ⟨2, 1/4⟩, ⟨3, 3/4⟩] 2 (by decide)

/-- C9 counterexample: at the concrete input (empty contact list, caller cap
`maxContacts = 0`), the Go `CharacterVirtual.GetActiveContacts` does not
return the bounded list of length `min(0, 0) = 0` the claim promises for
every caller-supplied maximum: passing `&cContacts[0]` on the empty slice it
allocated panics. -/
theorem c9_counterexample :
    JoltGo.CharacterVirtual.GetActiveContacts [] 0
      = Except.error JoltGo.GoPanic.indexOutOfRange
    ∧ JoltGo.CharacterVirtual.GetActiveContacts [] 0 ≠ Except.ok [] := by
  constructor
  · rfl
  · intro h
    exact Except.noConfusion
      ((rfl : JoltGo.CharacterVirtual.GetActiveContacts [] 0
          = Except.error JoltGo.GoPanic.indexOutOfRange) ▸ h)

/-- C9 (amended): for every caller-supplied maximum `maxContacts ≥ 1`, the
active-contacts operation returns (without panicking) the first
`min(#active contacts, maxContacts)` contact records, a count that never
exceeds `maxContacts`; for `maxContacts ≤ 0` the Go wrapper panics instead. -/
theorem c9_active_contacts_bounded (activeContacts : List JoltGo.CharacterContact)
    (maxContacts : Int) (h : 1 ≤ maxContacts) :
    JoltGo.CharacterVirtual.GetActiveContacts activeContacts maxContacts
      = Except.ok (JoltGo.JoltCharacterVirtualGetActiveContacts activeContacts maxContacts)
    ∧ (JoltGo.JoltCharacterVirtualGetActiveContacts activeContacts maxContacts).length
      = min activeContacts.length maxContacts.toNat
    ∧ (JoltGo.JoltCharacterVirtualGetActiveContacts activeContacts maxContacts).length
      ≤ maxContacts.toNat := by
  have hok : JoltGo.CharacterVirtual.GetActiveContacts activeContacts maxContacts
      = Except.ok (JoltGo.JoltCharacterVirtualGetActiveContacts activeContacts maxContacts) := by
    unfold JoltGo.CharacterVirtual.GetActiveContacts
    rw [if_neg (by omega), if_neg (by omega)]
  have hlen : (JoltGo.JoltCharacterVirtualGetActiveContacts activeContacts maxContacts).length
      = min activeContacts.length maxContacts.toNat := by
    simp only [JoltGo.JoltCharacterVirtualGetActiveContacts, List.length_take]
    split <;> omega
  exact ⟨hok, hlen, by omega⟩

/-- Witness for C9: one active contact, cap 1. -/
theorem c9_active_contacts_bounded_witness :
    JoltGo.CharacterVirtual.GetActiveContacts
        [⟨⟨0, 0, 0⟩, ⟨0, 0, 0⟩, ⟨0, 1, 0⟩, ⟨0, 1, 0⟩, 0, 0, some 7, 0, false, true, false, true⟩] 1
      = Except.ok (JoltGo.JoltCharacterVirtualGetActiveContacts
          [⟨⟨0, 0, 0⟩, ⟨0, 0, 0⟩, ⟨0, 1, 0⟩, ⟨0, 1, 0⟩, 0, 0, some 7, 0, false, true, false, true⟩] 1)
    ∧ (JoltGo.JoltCharacterVirtualGetActiveContacts
          [⟨⟨0, 0, 0⟩, ⟨0, 0, 0⟩, ⟨0, 1, 0⟩, ⟨0, 1, 0⟩, 0, 0, some 7, 0, false, true, false, true⟩] 1).length
      = min ([⟨⟨0, 0, 0⟩, ⟨0, 0, 0⟩, ⟨0, 1, 0⟩, ⟨0, 1, 0⟩, 0, 0, some 7, 0, false, true, false, true⟩]
          : List JoltGo.CharacterContact).length (Int.toNat 1)
    ∧ (JoltGo.JoltCharacterVirtualGetActiveContacts
          [⟨⟨0, 0, 0⟩, ⟨0, 0, 0⟩, ⟨0, 1, 0⟩, ⟨0, 1, 0⟩, 0, 0, some 7, 0, false, true, false, true⟩] 1).length
      ≤ Int.toNat 1 :=
  c9_active_contacts_bounded
    [⟨⟨0, 0, 0⟩, ⟨0, 0, 0⟩, ⟨0, 1, 0⟩, ⟨0, 1, 0⟩, 0, 0, some 7, 0, false, true, false, true⟩] 1
    (by decide)

/-- C10: for every shape, position, origin, direction and underlying engine
outcome, `CollideShapeGetHits` and `CastRayGetHits` called with
`maxHits ≤ 0` return the empty slice; the result does not depend on the
engine-query outcome at all (both theorems hold for every `engineHits`), which
is the model-level statement that the underlying C collision query is never
invoked, and no error or panic is possible. -/
theorem c10_nonpositive_maxhits (maxHits : Int) (h : maxHits ≤ 0)
    (rayHits : List JoltGo.RayCastResultRec)
    (collideHits : List JoltGo.CollisionHit) :
    JoltGo.PhysicsSystem.CastRayGetHits rayHits maxHits = []
    ∧ JoltGo.PhysicsSystem.CollideShapeGetHits collideHits maxHits = [] := by
  unfold JoltGo.PhysicsSystem.CastRayGetHits JoltGo.PhysicsSystem.CollideShapeGetHits
  rw [if_pos h, if_pos h]
  exact ⟨rfl, rfl⟩

/-- Witness for C10 at `maxHits = 0` with nonempty engine outcomes. -/
theorem c10_nonpositive_maxhits_witness :
    JoltGo.PhysicsSystem.CastRayGetHits [⟨1, 1/2⟩] 0 = []
    ∧ JoltGo.PhysicsSystem.CollideShapeGetHits [⟨1, ⟨0, 0, 0⟩, 1⟩] 0 = [] :=
  c10_nonpositive_maxhits 0 (by decide) [⟨1, 1/2⟩] [⟨1, ⟨0, 0, 0⟩, 1⟩]
